import Mathlib

/-
Shallow embedding of the cart / order / auth services of a small e-commerce
application (Python source under app/services and app/core), together with
theorems checking its natural-language specification against the code.

Modelling conventions:
  - Python floats holding monetary values are modelled as rationals.
  - Python ints are modelled as Int (quantities, stock) or Nat (ids).
  - Each service call opens one database session and either commits at the
    end or rolls back on any failure path, so a call is modelled as a pure
    function from a database state to a (result, new state) pair; every
    failure path returns the state unchanged.
  - SQLAlchemy query .first() is modelled as List.find? on the row list,
    .filter(...).all() as List.filter, .delete() as List.filter with the
    negated predicate, and mutation of a fetched row as updateFirst.
  - datetime.now() and secrets.token_hex(4) are modelled by passing the
    current date (y, m, d) and the four random bytes as explicit arguments.
  - hashlib.sha256 is modelled as an uninterpreted function argument.
-/

namespace Shop

/-- Monetary values (Python floats in the source) modelled as rationals. -/
abbrev Money := Rat

/-- Product row (app/core/database.py, class Product); only the columns the
services under study read or write are carried. -/
structure Product where
  pid : Nat
  name : String
  price : Money
  stock_quantity : Int
  is_active : Bool
  deriving Repr, DecidableEq

/-- Cart row (app/core/database.py, class CartItem). -/
structure CartItem where
  user_id : Nat
  product_id : Nat
  quantity : Int
  deriving Repr, DecidableEq

/-- Order row (app/core/database.py, class Order); products is the
order_items association, which carries only the product id per line. -/
structure Order where
  oid : Nat
  order_number : String
  user_id : Nat
  total_amount : Money
  tax_amount : Money
  shipping_amount : Money
  discount_amount : Money
  status : String
  payment_status : String
  products : List Nat
  deriving Repr, DecidableEq

/-- User row (app/core/database.py, class User). -/
structure UserRow where
  uid : Nat
  username : String
  email : String
  full_name : Option String
  hashed_password : String
  is_active : Bool
  is_admin : Bool
  deriving Repr, DecidableEq

/-- The database state seen by the services. -/
structure DB where
  products : List Product
  cart_items : List CartItem
  orders : List Order
  users : List UserRow
  deriving Repr, DecidableEq

/-- The plain result record the mutating service calls return. -/
structure Res where
  success : Bool
  message : String
  deriving Repr, DecidableEq

/-- Mutation of the first row matching a predicate, as done by assigning to
an attribute of the object returned by query(...).first(). -/
def updateFirst (p : α → Bool) (f : α → α) : List α → List α
  | [] => []
  | x :: xs => if p x then f x :: xs else x :: updateFirst p f xs

/-- Python round(x, 2) (round half to even), on the rational model. -/
def roundHalfEven (q : Rat) : Int :=
  let f : Int := q.floor
  let r : Rat := q - (f : Rat)
  if r < 1 / 2 then f
  else if 1 / 2 < r then f + 1
  else if f % 2 = 0 then f else f + 1

/-- Rounding to two decimal places, as round(x, 2) in the source. -/
def round2 (q : Rat) : Rat := ((roundHalfEven (q * 100) : Int) : Rat) / 100

/- ===== Cart service (app/services/cart_service.py) ===== -/

/-- Predicate for the cart row of a given (user, product) pair. -/
def cartKey (user_id product_id : Nat) (c : CartItem) : Bool :=
  c.user_id == user_id && c.product_id == product_id

/-- CartService.add_to_cart (cart_service.py lines 16-60). -/
def add_to_cart (db : DB) (user_id product_id : Nat) (quantity : Int) : Res × DB :=
  match db.products.find? (fun p => p.pid == product_id && p.is_active) with
  | none => ({ success := false, message := "Product not found" }, db)
  | some product =>
    if product.stock_quantity < quantity then
      ({ success := false, message := "Insufficient stock" }, db)
    else
      match db.cart_items.find? (cartKey user_id product_id) with
      | some existing_item =>
        let new_quantity := existing_item.quantity + quantity
        if product.stock_quantity < new_quantity then
          ({ success := false, message := "Insufficient stock" }, db)
        else
          let new_items := updateFirst (cartKey user_id product_id)
            (fun c => { c with quantity := new_quantity }) db.cart_items
          ({ success := true, message := "Item added to cart" },
           { db with cart_items := new_items })
      | none =>
        ({ success := true, message := "Item added to cart" },
         { db with cart_items := db.cart_items ++
             [{ user_id := user_id, product_id := product_id, quantity := quantity }] })

/-- CartService.remove_from_cart (cart_service.py lines 62-81). -/
def remove_from_cart (db : DB) (user_id product_id : Nat) : Res × DB :=
  match db.cart_items.find? (cartKey user_id product_id) with
  | none => ({ success := false, message := "Item not found in cart" }, db)
  | some _ =>
    ({ success := true, message := "Item removed from cart" },
     { db with cart_items := db.cart_items.eraseP (cartKey user_id product_id) })

/-- CartService.update_cart_item_quantity (cart_service.py lines 83-110). -/
def update_cart_item_quantity (db : DB) (user_id product_id : Nat) (quantity : Int) : Res × DB :=
  if quantity ≤ 0 then remove_from_cart db user_id product_id
  else
    match db.cart_items.find? (cartKey user_id product_id) with
    | none => ({ success := false, message := "Item not found in cart" }, db)
    | some _ =>
      match db.products.find? (fun p => p.pid == product_id) with
      | none => ({ success := false, message := "Insufficient stock" }, db)
      | some product =>
        if product.stock_quantity < quantity then
          ({ success := false, message := "Insufficient stock" }, db)
        else
          let new_items := updateFirst (cartKey user_id product_id)
            (fun c => { c with quantity := quantity }) db.cart_items
          ({ success := true, message := "Cart updated" },
           { db with cart_items := new_items })

/-- One entry of the listing returned by get_cart_items. -/
structure CartLine where
  product_id : Nat
  product_name : String
  product_price : Money
  quantity : Int
  subtotal : Money
  stock_available : Int
  deriving Repr, DecidableEq

/-- CartService.get_cart_items (cart_service.py lines 112-138): the cart rows
of the user joined with their product; rows whose product is missing or
inactive are silently skipped. -/
def get_cart_items (db : DB) (user_id : Nat) : List CartLine :=
  (db.cart_items.filter (fun c => c.user_id == user_id)).filterMap (fun item =>
    match db.products.find? (fun p => p.pid == item.product_id) with
    | none => none
    | some product =>
      if product.is_active then
        some { product_id := product.pid
               product_name := product.name
               product_price := product.price
               quantity := item.quantity
               subtotal := product.price * (item.quantity : Rat)
               stock_available := product.stock_quantity }
      else none)

/-- The summary record returned by get_cart_summary. -/
structure CartSummary where
  items : List CartLine
  total_items : Int
  subtotal : Money
  tax_amount : Money
  shipping_amount : Money
  total_amount : Money
  free_shipping_eligible : Bool
  free_shipping_remaining : Money
  deriving Repr, DecidableEq

/-- CartService.get_cart_summary (cart_service.py lines 140-165). The four
amounts are rounded at output; free_shipping_remaining is not rounded. -/
def get_cart_summary (db : DB) (user_id : Nat) : CartSummary :=
  let cart_items := get_cart_items db user_id
  let total_items := (cart_items.map (fun i => i.quantity)).sum
  let subtotal := (cart_items.map (fun i => i.subtotal)).sum
  let tax_amount := subtotal * (8 / 100)
  let shipping_amount : Rat := if 100 ≤ subtotal then 0 else 999 / 100
  let total_amount := subtotal + tax_amount + shipping_amount
  { items := cart_items
    total_items := total_items
    subtotal := round2 subtotal
    tax_amount := round2 tax_amount
    shipping_amount := round2 shipping_amount
    total_amount := round2 total_amount
    free_shipping_eligible := decide (100 ≤ subtotal)
    free_shipping_remaining := if subtotal < 100 then max 0 (100 - subtotal) else 0 }

/-- CartService.clear_cart (cart_service.py lines 167-179). -/
def clear_cart (db : DB) (user_id : Nat) : Res × DB :=
  ({ success := true, message := "Cart cleared" },
   { db with cart_items := db.cart_items.filter (fun c => !(c.user_id == user_id)) })

/-- The record returned by validate_cart_for_checkout. -/
structure CheckoutValidity where
  valid : Bool
  message : String
  issues : List String
  deriving Repr, DecidableEq

/-- CartService.validate_cart_for_checkout (cart_service.py lines 191-214). -/
def validate_cart_for_checkout (db : DB) (user_id : Nat) : CheckoutValidity :=
  let cart_items := db.cart_items.filter (fun c => c.user_id == user_id)
  if cart_items.isEmpty then
    { valid := false, message := "Cart is empty", issues := [] }
  else
    let issues := cart_items.filterMap (fun item =>
      match db.products.find? (fun p => p.pid == item.product_id) with
      | none => some ("Product " ++ toString item.product_id ++ " is no longer available")
      | some product =>
        if !product.is_active then
          some ("Product " ++ toString item.product_id ++ " is no longer available")
        else if product.stock_quantity < item.quantity then
          some (product.name ++ " has insufficient stock (available: " ++
            toString product.stock_quantity ++ ", requested: " ++ toString item.quantity ++ ")")
        else none)
    if !issues.isEmpty then
      { valid := false, message := "Cart validation failed", issues := issues }
    else
      { valid := true, message := "Cart is valid for checkout", issues := [] }

/- ===== Order service (app/services/order_service.py) ===== -/

/-- Decimal digits of a positive number, least significant first. -/
def digitsRev : Nat → List Nat
  | 0 => []
  | n + 1 => ((n + 1) % 10) :: digitsRev ((n + 1) / 10)
decreasing_by exact Nat.div_lt_self (Nat.succ_pos n) (by decide)

/-- Decimal digits, most significant first, as str(n) in Python. -/
def natDecimalDigits (n : Nat) : List Nat :=
  if n = 0 then [0] else (digitsRev n).reverse

/-- Character for one decimal digit. -/
def digitChar (d : Nat) : Char := Char.ofNat (48 + d)

/-- Zero-padded decimal rendering, as strftime field padding. -/
def padDigits (width n : Nat) : List Char :=
  let ds := (natDecimalDigits n).map digitChar
  List.replicate (width - ds.length) (digitChar 0) ++ ds

/-- Uppercase hexadecimal digit character. -/
def hexDigitUpper (d : Nat) : Char :=
  if d < 10 then Char.ofNat (48 + d) else Char.ofNat (55 + d)

/-- Two uppercase hex characters of one byte, as in token_hex followed by
upper(). -/
def byteHexUpper (b : Nat) : List Char := [hexDigitUpper (b / 16), hexDigitUpper (b % 16)]

/-- OrderService._generate_order_number (order_service.py lines 19-23):
CW + now().strftime of YYYYMMDD + token_hex(4).upper(). The current date and
the four random bytes are passed in explicitly. -/
def generate_order_number (y m d : Nat) (token : List Nat) : String :=
  String.mk (('C' :: 'W' :: (padDigits 4 y ++ padDigits 2 m ++ padDigits 2 d)) ++
    (token.map byteHexUpper).flatten)

/-- The per-line loop of create_order_from_cart (order_service.py lines
67-80): re-check stock, decrement it, and collect the association rows; an
insufficient line aborts the whole call (rollback). A line whose product
row is missing raises on attribute access, which the generic handler turns
into a rolled-back failure; validation has already excluded that case. -/
def processCartItems (ps : List Product) (acc : List Nat) :
    List CartItem → Except String (List Product × List Nat)
  | [] => Except.ok (ps, acc)
  | item :: rest =>
    match ps.find? (fun p => p.pid == item.product_id) with
    | none => Except.error "Order creation failed"
    | some product =>
      if product.stock_quantity < item.quantity then
        Except.error ("Insufficient stock for " ++ product.name)
      else
        processCartItems
          (updateFirst (fun p => p.pid == item.product_id)
            (fun p => { p with stock_quantity := p.stock_quantity - item.quantity }) ps)
          (acc ++ [item.product_id]) rest

/-- OrderService.create_order_from_cart (order_service.py lines 25-103).
Shipping-address and payment-method fields are copied verbatim into the
order row and read by no claim, so they are not carried in the model. -/
def create_order_from_cart (db : DB) (user_id : Nat) (y m d : Nat) (token : List Nat) :
    Res × DB :=
  let cart_check := validate_cart_for_checkout db user_id
  if !cart_check.valid then
    ({ success := false, message := cart_check.message }, db)
  else
    let cart_summary := get_cart_summary db user_id
    if cart_summary.items.isEmpty then
      ({ success := false, message := "Cart is empty" }, db)
    else
      let cart_items := db.cart_items.filter (fun c => c.user_id == user_id)
      match processCartItems db.products [] cart_items with
      | Except.error msg => ({ success := false, message := msg }, db)
      | Except.ok (new_products, order_pids) =>
        let order : Order :=
          { oid := db.orders.length + 1
            order_number := generate_order_number y m d token
            user_id := user_id
            total_amount := cart_summary.total_amount
            tax_amount := cart_summary.tax_amount
            shipping_amount := cart_summary.shipping_amount
            discount_amount := 0
            status := "pending"
            payment_status := "pending"
            products := order_pids }
        ({ success := true, message := "Order created successfully" },
         { db with products := new_products
                   cart_items := db.cart_items.filter (fun c => !(c.user_id == user_id))
                   orders := db.orders ++ [order] })

/-- Stock restore loop of cancel_order (order_service.py lines 312-313): a
fixed increment of one unit per association line, not the purchased
quantity. -/
def restoreStock (ps : List Product) (pids : List Nat) : List Product :=
  pids.foldl (fun acc pid =>
    updateFirst (fun p => p.pid == pid)
      (fun p => { p with stock_quantity := p.stock_quantity + 1 }) acc) ps

/-- The order lookup of cancel_order: by id, and scoped to the user when a
user id is supplied. -/
def orderMatches (order_id : Nat) (user_id : Option Nat) (o : Order) : Bool :=
  o.oid == order_id &&
    (match user_id with
     | some u => o.user_id == u
     | none => true)

/-- OrderService.cancel_order (order_service.py lines 296-326). -/
def cancel_order (db : DB) (order_id : Nat) (user_id : Option Nat) : Res × DB :=
  match db.orders.find? (orderMatches order_id user_id) with
  | none => ({ success := false, message := "Order not found" }, db)
  | some order =>
    if order.status == "shipped" || order.status == "delivered" ||
        order.status == "cancelled" then
      ({ success := false, message := "Order cannot be cancelled" }, db)
    else
      let new_orders := updateFirst (orderMatches order_id user_id)
        (fun o => { o with status := "cancelled" }) db.orders
      ({ success := true, message := "Order cancelled successfully" },
       { db with products := restoreStock db.products order.products
                 orders := new_orders })

/-- The record get_order_statistics is meant to return. -/
structure OrderStats where
  total_orders : Nat
  pending_orders : Nat
  completed_orders : Nat
  total_revenue : Money
  recent_orders : List Order
  deriving Repr, DecidableEq

/-- Names bound at module level in order_service.py (its import statements,
lines 3-10, plus the classes defined in the module). The module imports
and_ and desc from sqlalchemy but never func, so the reference to func.sum
at line 270 raises NameError when get_order_statistics runs. -/
def orderServiceModuleNames : List String :=
  ["secrets", "datetime", "List", "Dict", "Any", "Optional", "Session", "and_", "desc",
   "get_session", "Order", "Product", "CartItem", "User", "CartService", "OrderService"]

/-- OrderService.get_order_statistics (order_service.py lines 260-294). The
three counts (lines 264-266) are computed first; the revenue query at line
269-271 then evaluates the unbound name func. The method has no except
clause, only a finally that closes the session, so the NameError escapes to
the caller. In Python the error message quotes the name func; the quotes
are omitted here. Creation order stands in for the created_at ordering of
the recent-orders query, since rows are only ever appended. -/
def get_order_statistics (db : DB) : Except String OrderStats :=
  let total_orders := db.orders.length
  let pending_orders := (db.orders.filter (fun o => o.status == "pending")).length
  let completed_orders := (db.orders.filter (fun o => o.status == "delivered")).length
  if "func" ∈ orderServiceModuleNames then
    Except.ok
      { total_orders := total_orders
        pending_orders := pending_orders
        completed_orders := completed_orders
        total_revenue :=
          ((db.orders.filter (fun o => o.payment_status == "paid")).map
            (fun o => o.total_amount)).sum
        recent_orders := db.orders.reverse.take 5 }
  else
    Except.error "NameError: name func is not defined"

/- ===== Product service (app/services/product_service.py) ===== -/

/-- ProductService.update_stock (product_service.py lines 288-309): a
conditional adjustment that refuses to drive stock below zero. -/
def update_stock (db : DB) (product_id : Nat) (quantity_change : Int) : Bool × DB :=
  match db.products.find? (fun p => p.pid == product_id) with
  | none => (false, db)
  | some product =>
    let new_quantity := product.stock_quantity + quantity_change
    if new_quantity < 0 then (false, db)
    else
      let new_products := updateFirst (fun p => p.pid == product_id)
        (fun p => { p with stock_quantity := new_quantity }) db.products
      (true, { db with products := new_products })

/- ===== Auth service (app/services/auth_service.py) ===== -/

/-- Names bound at module level in auth_service.py (its import statements,
lines 3-11, plus the class defined in the module). The module imports and_
from sqlalchemy but never or_, so the or_ calls at lines 40 and 87 raise
NameError when register_user or authenticate_user runs. (Independently,
the List annotation at line 250 references another unimported name, which
already fails when the module is imported.) -/
def authServiceModuleNames : List String :=
  ["hashlib", "secrets", "datetime", "timedelta", "Optional", "Dict", "Any", "Session",
   "and_", "get_session", "User", "settings", "AuthService"]

/-- AuthService._hash_password (auth_service.py lines 20-24); sha256 is the
uninterpreted digest function and salt the generated random salt. -/
def hash_password (sha256 : String → String) (salt password : String) : String :=
  salt ++ ":" ++ sha256 (password ++ salt)

/-- AuthService._verify_password (auth_service.py lines 26-32): a stored
value that does not split into exactly salt and hash raises ValueError,
caught to False. -/
def verify_password (sha256 : String → String) (password hashed_password : String) : Bool :=
  match hashed_password.splitOn ":" with
  | [salt, phash] => sha256 (password ++ salt) == phash
  | _ => false

/-- AuthService.register_user (auth_service.py lines 34-78). The first
statement of the try block (lines 39-41) evaluates or_, which the module
never imports; the NameError is caught by the generic handler at line 74,
which rolls back and returns a failure record, so the branch that would
check for conflicts and insert the user is unreachable. In Python the
error message quotes the name or_; the quotes are omitted here. -/
def register_user (db : DB) (sha256 : String → String) (salt : String)
    (username email password : String) (full_name : Option String) : Res × DB :=
  if "or_" ∈ authServiceModuleNames then
    match db.users.find? (fun u => u.username == username || u.email == email) with
    | some existing_user =>
      if existing_user.username == username then
        ({ success := false, message := "Username already exists" }, db)
      else
        ({ success := false, message := "Email already registered" }, db)
    | none =>
      let user : UserRow :=
        { uid := db.users.length + 1
          username := username
          email := email
          full_name := full_name
          hashed_password := hash_password sha256 salt password
          is_active := true
          is_admin := false }
      ({ success := true, message := "User registered successfully" },
       { db with users := db.users ++ [user] })
  else
    ({ success := false, message := "Registration failed: name or_ is not defined" }, db)

/-- AuthService.authenticate_user (auth_service.py lines 80-115). The user
query at lines 85-90 evaluates the unbound name or_; the NameError is
caught at line 112 and turned into a failure record, so the credential
check is unreachable. -/
def authenticate_user (db : DB) (sha256 : String → String) (username password : String) :
    Res × DB :=
  if "or_" ∈ authServiceModuleNames then
    match db.users.find? (fun u => (u.username == username || u.email == username) &&
        u.is_active) with
    | none => ({ success := false, message := "Invalid credentials" }, db)
    | some user =>
      if verify_password sha256 password user.hashed_password then
        ({ success := true, message := "Authentication successful" }, db)
      else
        ({ success := false, message := "Invalid credentials" }, db)
  else
    ({ success := false, message := "Authentication failed: name or_ is not defined" }, db)

/- ===== Operation sequences over the store ===== -/

/-- One sequential service call touching carts, orders or stock. -/
inductive Op where
  | add (user_id product_id : Nat) (quantity : Int)
  | setQty (user_id product_id : Nat) (quantity : Int)
  | remove (user_id product_id : Nat)
  | clear (user_id : Nat)
  | checkout (user_id y m d : Nat) (token : List Nat)
  | cancel (order_id : Nat) (user_id : Option Nat)
  | adjustStock (product_id : Nat) (quantity_change : Int)

/-- The state transition of one call (its result record discarded). -/
def applyOp (db : DB) : Op → DB
  | Op.add u p q => (add_to_cart db u p q).2
  | Op.setQty u p q => (update_cart_item_quantity db u p q).2
  | Op.remove u p => (remove_from_cart db u p).2
  | Op.clear u => (clear_cart db u).2
  | Op.checkout u y m d t => (create_order_from_cart db u y m d t).2
  | Op.cancel o u => (cancel_order db o u).2
  | Op.adjustStock p q => (update_stock db p q).2

/-- A sequence of service calls run back to back. -/
def runOps (db : DB) (ops : List Op) : DB := ops.foldl applyOp db

/- ===== Derived observations used by the specification statements ===== -/

/-- The product row a query by primary key returns. -/
def findProd (ps : List Product) (k : Nat) : Option Product :=
  ps.find? (fun p => p.pid == k)

/-- The stock of the product with id k, when present. -/
def stockOf (ps : List Product) (k : Nat) : Option Int :=
  (findProd ps k).map (fun p => p.stock_quantity)

/-- Total quantity the given cart rows request of product k. -/
def reqQty (items : List CartItem) (k : Nat) : Int :=
  ((items.filter (fun c => c.product_id == k)).map (fun c => c.quantity)).sum

/-- The unrounded cart subtotal: the sum of price times quantity over the
cart rows of the user joined with their active products. -/
def rawSubtotal (db : DB) (u : Nat) : Rat :=
  ((get_cart_items db u).map (fun i => i.product_price * (i.quantity : Rat))).sum

/-- Some cart line of the user exceeds the current stock of its product:
the condition the per-line re-check inside create_order_from_cart (line 71)
tests, read on the state the call starts from. -/
def stockRecheckFails (db : DB) (u : Nat) : Bool :=
  (db.cart_items.filter (fun c => c.user_id == u)).any (fun c =>
    match db.products.find? (fun p => p.pid == c.product_id) with
    | some p => decide (p.stock_quantity < c.quantity)
    | none => false)

/-- Decimal digit character test. -/
def isDigitChar (c : Char) : Bool := 48 ≤ c.toNat && c.toNat ≤ 57

/-- Uppercase hexadecimal character test. -/
def isUpperHexChar (c : Char) : Bool := isDigitChar c || (65 ≤ c.toNat && c.toNat ≤ 70)

/-- The order-number shape the specification states: CW, then 8 decimal
digits, then 8 uppercase hexadecimal characters. -/
def orderNumberPattern (s : String) : Bool :=
  s.data.length == 18 &&
  s.data.take 2 == ['C', 'W'] &&
  ((s.data.drop 2).take 8).all isDigitChar &&
  (s.data.drop 10).all isUpperHexChar

/-- Every cart row carries a positive quantity. -/
def cartQtyOk (items : List CartItem) : Prop := ∀ c ∈ items, 1 ≤ c.quantity

/-- Two cart rows with distinct (user, product) keys. -/
def keyDiff (a b : CartItem) : Prop :=
  ¬(a.user_id = b.user_id ∧ a.product_id = b.product_id)

/-- At most one cart row per (user, product) pair. -/
def cartUnique (items : List CartItem) : Prop := items.Pairwise keyDiff

/- ===== Concrete stores used to witness the theorems ===== -/

/-- A store with one active product, price 95, stock 5, and one cart row of
user 1 for it. -/
def exStore : DB :=
  { products := [{ pid := 1, name := "W", price := 95, stock_quantity := 5, is_active := true }]
    cart_items := [{ user_id := 1, product_id := 1, quantity := 1 }]
    orders := []
    users := [] }

/-- The same store with the cart row asking for 9 units, more than the
stock of 5. -/
def exStoreShort : DB :=
  { exStore with cart_items := [{ user_id := 1, product_id := 1, quantity := 9 }] }

/-- A store whose product price is one eighth, so that 100 minus the cart
subtotal is not a two-decimal quantity. -/
def exStoreEighth : DB :=
  { exStore with
      products := [{ pid := 1, name := "W", price := 1 / 8, stock_quantity := 5,
                     is_active := true }] }

/-- A store with one active product of stock 5 and an empty cart. -/
def exStoreEmptyCart : DB := { exStore with cart_items := [] }

/-- A pending order of user 1 carrying product 1. -/
def exOrderPending : Order :=
  { oid := 1
    order_number := "CW2026101201AB03FF"
    user_id := 1
    total_amount := 11259 / 100
    tax_amount := 38 / 5
    shipping_amount := 999 / 100
    discount_amount := 0
    status := "pending"
    payment_status := "pending"
    products := [1] }

/-- A store holding the pending order, with stock already decremented. -/
def exStoreWithOrder : DB :=
  { products := [{ pid := 1, name := "W", price := 95, stock_quantity := 4,
                   is_active := true }]
    cart_items := []
    orders := [exOrderPending]
    users := [] }

/-- The same store with the order already shipped. -/
def exStoreWithShipped : DB :=
  { exStoreWithOrder with orders := [{ exOrderPending with status := "shipped" }] }

/-- An operation sequence exercising add, checkout, cancel and a stock
adjustment. -/
def exOps : List Op :=
  [Op.add 1 1 2, Op.checkout 1 2026 10 12 [0, 1, 2, 3], Op.cancel 1 none,
   Op.add 1 1 4, Op.setQty 1 1 5, Op.checkout 1 2026 10 13 [4, 5, 6, 7],
   Op.adjustStock 1 (-1), Op.cancel 2 (some 1)]

/- ===== Library lemmas about the row-mutation helper ===== -/

theorem mem_updateFirst {α : Type} {p : α → Bool} {f : α → α} :
    ∀ {l : List α} {x : α}, x ∈ updateFirst p f l →
      x ∈ l ∨ ∃ y, l.find? p = some y ∧ x = f y := by
  intro l
  induction l with
  | nil => intro x hx; exact absurd hx (by simp [updateFirst])
  | cons a as ih =>
    intro x hx
    rw [updateFirst] at hx
    by_cases hpa : p a
    · rw [if_pos hpa] at hx
      rcases List.mem_cons.mp hx with h | h
      · exact Or.inr ⟨a, List.find?_cons_of_pos _ hpa, h⟩
      · exact Or.inl (List.mem_cons_of_mem _ h)
    · rw [if_neg hpa] at hx
      rcases List.mem_cons.mp hx with h | h
      · exact Or.inl (h ▸ List.mem_cons_self a as)
      · rcases ih h with h2 | ⟨y, hy, hxy⟩
        · exact Or.inl (List.mem_cons_of_mem _ h2)
        · exact Or.inr ⟨y, by rw [List.find?_cons_of_neg _ hpa]; exact hy, hxy⟩

theorem find?_updateFirst_of_preserve {α : Type} {p : α → Bool} {f : α → α}
    (hpf : ∀ y, p (f y) = p y) :
    ∀ l : List α, (updateFirst p f l).find? p = (l.find? p).map f := by
  intro l
  induction l with
  | nil => simp [updateFirst]
  | cons a as ih =>
    rw [updateFirst]
    by_cases hpa : p a
    · rw [if_pos hpa, List.find?_cons_of_pos _ hpa,
        List.find?_cons_of_pos _ ((hpf a).trans hpa)]
      rfl
    · rw [if_neg hpa, List.find?_cons_of_neg _ hpa, List.find?_cons_of_neg _ hpa]
      exact ih

theorem findProd_updateFirst (j k : Nat) (f : Product → Product)
    (hf : ∀ p, (f p).pid = p.pid) :
    ∀ ps : List Product,
      findProd (updateFirst (fun p => p.pid == j) f ps) k =
        if k = j then (findProd ps j).map f else findProd ps k := by
  intro ps
  induction ps with
  | nil => by_cases hkj : k = j <;> simp [findProd, updateFirst, hkj]
  | cons a as ih =>
    rw [updateFirst]
    by_cases haj : a.pid = j
    · rw [if_pos (by simpa using haj)]
      by_cases hkj : k = j
      · rw [if_pos hkj]
        unfold findProd
        rw [List.find?_cons_of_pos _ (by simp [hf, haj, hkj]),
          List.find?_cons_of_pos _ (by simp [haj])]
        rfl
      · rw [if_neg hkj]
        unfold findProd
        rw [List.find?_cons_of_neg _ (by simp [hf, haj]; omega),
          List.find?_cons_of_neg _ (by simp [haj]; omega)]
    · rw [if_neg (by simpa using haj)]
      by_cases hkj : k = j
      · rw [if_pos hkj]
        unfold findProd
        rw [List.find?_cons_of_neg _ (by simp [haj, hkj]),
          List.find?_cons_of_neg _ (by simpa [hkj] using haj)]
        have := ih
        rw [if_pos hkj] at this
        exact this
      · rw [if_neg hkj]
        by_cases hak : a.pid = k
        · unfold findProd
          rw [List.find?_cons_of_pos _ (by simp [hak]),
            List.find?_cons_of_pos _ (by simp [hak])]
        · unfold findProd
          rw [List.find?_cons_of_neg _ (by simp [hak]),
            List.find?_cons_of_neg _ (by simp [hak])]
          have := ih
          rw [if_neg hkj] at this
          exact this

theorem stockOf_updateFirst (j k : Nat) (g : Int → Int) (ps : List Product) :
    stockOf (updateFirst (fun p => p.pid == j)
        (fun p => { p with stock_quantity := g p.stock_quantity }) ps) k =
      if k = j then (stockOf ps j).map g else stockOf ps k := by
  unfold stockOf
  rw [findProd_updateFirst j k
    (fun p => { p with stock_quantity := g p.stock_quantity }) (fun _ => rfl) ps]
  by_cases hkj : k = j
  · rw [if_pos hkj, if_pos hkj]
    cases findProd ps j <;> rfl
  · rw [if_neg hkj, if_neg hkj]

theorem stockOf_restoreStock :
    ∀ (pids : List Nat) (ps : List Product) (k : Nat), pids.Nodup →
      stockOf (restoreStock ps pids) k =
        (stockOf ps k).map (fun s => s + (if k ∈ pids then 1 else 0)) := by
  intro pids
  induction pids with
  | nil =>
    intro ps k _
    simp only [restoreStock, List.foldl_nil, List.not_mem_nil, if_neg (fun h => h)]
    cases stockOf ps k <;> simp
  | cons j rest ih =>
    intro ps k hnd
    have hstep : restoreStock ps (j :: rest) =
        restoreStock (updateFirst (fun p => p.pid == j)
          (fun p => { p with stock_quantity := p.stock_quantity + 1 }) ps) rest := rfl
    rw [hstep, ih _ k (List.Nodup.of_cons hnd),
      stockOf_updateFirst j k (fun s => s + 1) ps]
    have hjrest : j ∉ rest := (List.nodup_cons.mp hnd).1
    by_cases hkj : k = j
    · subst hkj
      rw [if_pos rfl]
      cases stockOf ps k <;>
        simp [hjrest]
    · rw [if_neg hkj]
      cases stockOf ps k <;>
        simp [List.mem_cons, hkj]

theorem reqQty_cons (c : CartItem) (rest : List CartItem) (k : Nat) :
    reqQty (c :: rest) k = (if c.product_id = k then c.quantity else 0) + reqQty rest k := by
  unfold reqQty
  by_cases h : c.product_id = k
  · rw [if_pos h, List.filter_cons_of_pos (by simpa using h)]
    simp
  · rw [if_neg h, List.filter_cons_of_neg (by simpa using h)]
    simp

theorem processCartItems_ok_stock :
    ∀ (items : List CartItem) (ps ps2 : List Product) (acc pids : List Nat),
      processCartItems ps acc items = Except.ok (ps2, pids) →
      ∀ k, stockOf ps2 k = (stockOf ps k).map (fun s => s - reqQty items k) := by
  intro items
  induction items with
  | nil =>
    intro ps ps2 acc pids h k
    rw [processCartItems] at h
    injection h with h
    cases h
    unfold reqQty
    cases stockOf ps k <;> simp
  | cons item rest ih =>
    intro ps ps2 acc pids h k
    rw [processCartItems] at h
    cases hfind : ps.find? (fun p => p.pid == item.product_id) with
    | none => rw [hfind] at h; exact absurd h (by simp)
    | some product =>
      rw [hfind] at h
      dsimp only at h
      by_cases hq : product.stock_quantity < item.quantity
      · rw [if_pos hq] at h; exact absurd h (by simp)
      · rw [if_neg hq] at h
        have hstep := ih _ _ _ _ h k
        rw [hstep, stockOf_updateFirst item.product_id k
          (fun s => s - item.quantity) ps, reqQty_cons]
        by_cases hkp : k = item.product_id
        · subst hkp
          rw [if_pos rfl, if_pos rfl]
          cases stockOf ps item.product_id with
          | none => rfl
          | some s =>
            simp only [Option.map_some']
            congr 1
            omega
        · rw [if_neg hkp, if_neg (fun hh => hkp hh.symm)]
          cases stockOf ps k with
          | none => rfl
          | some s =>
            simp only [Option.map_some']
            congr 1
            omega

theorem processCartItems_ok_nonneg :
    ∀ (items : List CartItem) (ps ps2 : List Product) (acc pids : List Nat),
      processCartItems ps acc items = Except.ok (ps2, pids) →
      (∀ p ∈ ps, 0 ≤ p.stock_quantity) → ∀ p ∈ ps2, 0 ≤ p.stock_quantity := by
  intro items
  induction items with
  | nil =>
    intro ps ps2 acc pids h h0
    rw [processCartItems] at h
    injection h with h
    cases h
    exact h0
  | cons item rest ih =>
    intro ps ps2 acc pids h h0
    rw [processCartItems] at h
    cases hfind : ps.find? (fun p => p.pid == item.product_id) with
    | none => rw [hfind] at h; exact absurd h (by simp)
    | some product =>
      rw [hfind] at h
      dsimp only at h
      by_cases hq : product.stock_quantity < item.quantity
      · rw [if_pos hq] at h; exact absurd h (by simp)
      · rw [if_neg hq] at h
        refine ih _ _ _ _ h ?_
        intro x hx
        rcases mem_updateFirst hx with hmem | ⟨y, hy, hxy⟩
        · exact h0 x hmem
        · rw [hfind] at hy
          injection hy with hy
          subst hy
          subst hxy
          simp only
          omega

theorem restoreStock_nonneg :
    ∀ (pids : List Nat) (ps : List Product),
      (∀ p ∈ ps, 0 ≤ p.stock_quantity) → ∀ p ∈ restoreStock ps pids, 0 ≤ p.stock_quantity := by
  intro pids
  induction pids with
  | nil => intro ps h0; exact h0
  | cons j rest ih =>
    intro ps h0
    have hstep : restoreStock ps (j :: rest) =
        restoreStock (updateFirst (fun p => p.pid == j)
          (fun p => { p with stock_quantity := p.stock_quantity + 1 }) ps) rest := rfl
    rw [hstep]
    refine ih _ ?_
    intro x hx
    rcases mem_updateFirst hx with hmem | ⟨y, hy, hxy⟩
    · exact h0 x hmem
    · subst hxy
      have := h0 y (List.mem_of_find?_eq_some hy)
      simp only
      omega

theorem add_to_cart_products (db : DB) (u pid : Nat) (q : Int) :
    (add_to_cart db u pid q).2.products = db.products := by
  unfold add_to_cart
  dsimp only
  repeat' split
  all_goals rfl

theorem remove_from_cart_products (db : DB) (u pid : Nat) :
    (remove_from_cart db u pid).2.products = db.products := by
  unfold remove_from_cart
  repeat' split
  all_goals rfl

theorem update_cart_item_quantity_products (db : DB) (u pid : Nat) (q : Int) :
    (update_cart_item_quantity db u pid q).2.products = db.products := by
  unfold update_cart_item_quantity
  split
  · exact remove_from_cart_products db u pid
  · dsimp only
    repeat' split
    all_goals rfl

theorem clear_cart_products (db : DB) (u : Nat) :
    (clear_cart db u).2.products = db.products := rfl

theorem create_order_shape (db : DB) (u y m d : Nat) (token : List Nat) :
    ((create_order_from_cart db u y m d token).1.success = false ∧
      (create_order_from_cart db u y m d token).2 = db) ∨
    ((create_order_from_cart db u y m d token).1.success = true ∧
      ∃ ps2 pids,
        processCartItems db.products [] (db.cart_items.filter (fun c => c.user_id == u)) =
          Except.ok (ps2, pids) ∧
        (create_order_from_cart db u y m d token).2 =
          { db with
              products := ps2
              cart_items := db.cart_items.filter (fun c => !(c.user_id == u))
              orders := db.orders ++
                [{ oid := db.orders.length + 1
                   order_number := generate_order_number y m d token
                   user_id := u
                   total_amount := (get_cart_summary db u).total_amount
                   tax_amount := (get_cart_summary db u).tax_amount
                   shipping_amount := (get_cart_summary db u).shipping_amount
                   discount_amount := 0
                   status := "pending"
                   payment_status := "pending"
                   products := pids }] }) := by
  unfold create_order_from_cart
  dsimp only
  split
  · exact Or.inl ⟨rfl, rfl⟩
  · split
    · exact Or.inl ⟨rfl, rfl⟩
    · split
      · exact Or.inl ⟨rfl, rfl⟩
      · next new_products order_pids heq =>
        exact Or.inr ⟨rfl, new_products, order_pids, heq, rfl⟩

theorem create_order_fail_unchanged (db : DB) (u y m d : Nat) (token : List Nat)
    (h : (create_order_from_cart db u y m d token).1.success = false) :
    (create_order_from_cart db u y m d token).2 = db := by
  rcases create_order_shape db u y m d token with ⟨_, h2⟩ | ⟨h1, _⟩
  · exact h2
  · rw [h1] at h
    exact absurd h (by simp)

theorem create_order_success_state (db : DB) (u y m d : Nat) (token : List Nat)
    (h : (create_order_from_cart db u y m d token).1.success = true) :
    ∃ ps2 pids,
      processCartItems db.products [] (db.cart_items.filter (fun c => c.user_id == u)) =
        Except.ok (ps2, pids) ∧
      (create_order_from_cart db u y m d token).2 =
        { db with
            products := ps2
            cart_items := db.cart_items.filter (fun c => !(c.user_id == u))
            orders := db.orders ++
              [{ oid := db.orders.length + 1
                 order_number := generate_order_number y m d token
                 user_id := u
                 total_amount := (get_cart_summary db u).total_amount
                 tax_amount := (get_cart_summary db u).tax_amount
                 shipping_amount := (get_cart_summary db u).shipping_amount
                 discount_amount := 0
                 status := "pending"
                 payment_status := "pending"
                 products := pids }] } := by
  rcases create_order_shape db u y m d token with ⟨h1, _⟩ | ⟨_, h2⟩
  · rw [h1] at h
    exact absurd h (by simp)
  · exact h2

theorem stockRecheckFails_invalid (db : DB) (u : Nat)
    (h : stockRecheckFails db u = true) :
    (validate_cart_for_checkout db u).valid = false := by
  unfold stockRecheckFails at h
  rw [List.any_eq_true] at h
  obtain ⟨c, hc, hcp⟩ := h
  cases hfind : db.products.find? (fun p => p.pid == c.product_id) with
  | none => rw [hfind] at hcp; exact absurd hcp (by simp)
  | some p =>
    rw [hfind] at hcp
    have hlt : p.stock_quantity < c.quantity := of_decide_eq_true hcp
    unfold validate_cart_for_checkout
    dsimp only
    have hne : (db.cart_items.filter (fun x => x.user_id == u)).isEmpty = false := by
      cases hemp : (db.cart_items.filter (fun x => x.user_id == u)).isEmpty
      · rfl
      · rw [List.isEmpty_iff] at hemp
        exact absurd (hemp ▸ hc) (by simp)
    rw [hne]
    simp only [Bool.false_eq_true, if_false]
    split
    · rfl
    · next hflat =>
      exfalso
      have hb : ∀ b : Bool, ¬((!b) = true) → b = true := by decide
      have hflat2 := hb _ hflat
      rw [List.isEmpty_iff, List.filterMap_eq_nil_iff] at hflat2
      have := hflat2 c hc
      rw [hfind] at this
      cases hact : p.is_active <;> simp [hact, hlt] at this

theorem applyOp_nonneg (db : DB) (op : Op)
    (h : ∀ p ∈ db.products, 0 ≤ p.stock_quantity) :
    ∀ p ∈ (applyOp db op).products, 0 ≤ p.stock_quantity := by
  cases op with
  | add u pid q => rw [applyOp, add_to_cart_products]; exact h
  | setQty u pid q => rw [applyOp, update_cart_item_quantity_products]; exact h
  | remove u pid => rw [applyOp, remove_from_cart_products]; exact h
  | clear u => rw [applyOp, clear_cart_products]; exact h
  | checkout u y m d t =>
    rw [applyOp]
    cases hs : (create_order_from_cart db u y m d t).1.success with
    | false => rw [create_order_fail_unchanged db u y m d t hs]; exact h
    | true =>
      obtain ⟨ps2, pids, hpci, hstate⟩ := create_order_success_state db u y m d t hs
      rw [hstate]
      exact processCartItems_ok_nonneg _ _ _ _ _ hpci h
  | cancel oid uid =>
    rw [applyOp]
    unfold cancel_order
    split
    · exact h
    · split
      · exact h
      · exact restoreStock_nonneg _ _ h
  | adjustStock pid dq =>
    rw [applyOp]
    unfold update_stock
    split
    · exact h
    · dsimp only
      split
      · exact h
      · next hneg =>
        intro x hx
        rcases mem_updateFirst hx with hmem | ⟨y, hy, hxy⟩
        · exact h x hmem
        · subst hxy
          simp only
          omega

/-- Claim C2: starting from products whose stock is non-negative, no
sequence of cart add, set-quantity, remove, clear, checkout, cancel or
stock-adjustment calls, run sequentially, ever drives the stock of any
product negative. -/
theorem stock_never_negative (db : DB)
    (h : ∀ p ∈ db.products, 0 ≤ p.stock_quantity) :
    ∀ ops : List Op, ∀ p ∈ (runOps db ops).products, 0 ≤ p.stock_quantity := by
  intro ops
  induction ops generalizing db with
  | nil => exact h
  | cons op rest ih =>
    rw [runOps, List.foldl_cons]
    exact ih (applyOp db op) (applyOp_nonneg db op h)

/-- Witness for stock_never_negative on a concrete store and a concrete
sequence of calls. -/
theorem stock_never_negative_witness :
    (runOps exStore exOps).products.all (fun p => decide (0 ≤ p.stock_quantity)) = true := by
  have h := stock_never_negative exStore (by decide) exOps
  rw [List.all_eq_true]
  intro p hp
  exact decide_eq_true (h p hp)

/-- Claim C1: create_order_from_cart is all-or-nothing. Any failing call
leaves the store exactly as it was; in particular a cart that fails the
per-line stock re-check changes no stock, creates no order and leaves the
cart unchanged. A successful call commits the order row, the per-line
stock decrements and the clearing of the cart of that user as one unit. -/
theorem createFromCart_all_or_nothing (db : DB) (u y m d : Nat) (token : List Nat) :
    ((create_order_from_cart db u y m d token).1.success = false →
      (create_order_from_cart db u y m d token).2 = db) ∧
    (stockRecheckFails db u = true →
      (create_order_from_cart db u y m d token).1.success = false) ∧
    ((create_order_from_cart db u y m d token).1.success = true →
      (create_order_from_cart db u y m d token).2.cart_items =
        db.cart_items.filter (fun c => !(c.user_id == u)) ∧
      (∃ o : Order, o.status = "pending" ∧
        (create_order_from_cart db u y m d token).2.orders = db.orders ++ [o]) ∧
      (∀ k : Nat,
        stockOf (create_order_from_cart db u y m d token).2.products k =
          (stockOf db.products k).map
            (fun s => s - reqQty (db.cart_items.filter (fun c => c.user_id == u)) k))) := by
  refine ⟨create_order_fail_unchanged db u y m d token, ?_, ?_⟩
  · intro hrc
    have hvalid := stockRecheckFails_invalid db u hrc
    unfold create_order_from_cart
    dsimp only
    rw [hvalid]
    simp
  · intro hs
    obtain ⟨ps2, pids, hpci, hstate⟩ := create_order_success_state db u y m d token hs
    rw [hstate]
    refine ⟨rfl, ⟨_, rfl, rfl⟩, ?_⟩
    intro k
    exact processCartItems_ok_stock _ _ _ _ _ hpci k

/-- Witness for createFromCart_all_or_nothing: a store whose single cart
line asks for 9 of a product with stock 5 fails and is left unchanged. -/
theorem createFromCart_all_or_nothing_witness :
    (create_order_from_cart exStoreShort 1 2026 10 12 [1, 2, 3, 4]).1.success = false ∧
    (create_order_from_cart exStoreShort 1 2026 10 12 [1, 2, 3, 4]).2 = exStoreShort := by
  have hthm := createFromCart_all_or_nothing exStoreShort 1 2026 10 12 [1, 2, 3, 4]
  have hfail := hthm.2.1 (by decide)
  exact ⟨hfail, hthm.1 hfail⟩

theorem rat_floor_eq_floor (q : Rat) : Rat.floor q = ⌊q⌋ := by
  rw [Rat.floor_def, Rat.floor_def']

theorem get_cart_items_subtotal (db : DB) (u : Nat) :
    ∀ line ∈ get_cart_items db u,
      line.subtotal = line.product_price * (line.quantity : Rat) := by
  intro line hl
  rw [get_cart_items, List.mem_filterMap] at hl
  obtain ⟨item, hitem, hf⟩ := hl
  cases hfind : db.products.find? (fun p => p.pid == item.product_id) with
  | none => rw [hfind] at hf; exact absurd hf (by simp)
  | some product =>
    rw [hfind] at hf
    dsimp only at hf
    by_cases hact : product.is_active
    · rw [if_pos hact] at hf
      injection hf with hf
      subst hf
      rfl
    · rw [if_neg hact] at hf
      exact absurd hf (by simp)

/-- Claim C3 (amended): get_cart_summary is a pure function of the cart
rows joined with active products; subtotal, tax (8 percent), shipping
(0 from 100 upward, else 9.99) and total are each computed on the
unrounded subtotal and rounded to two decimals only at output, and
free_shipping_eligible is subtotal at least 100 — but the remaining amount
to free shipping is returned without rounding, as max 0 (100 - subtotal). -/
theorem get_cart_summary_spec (db : DB) (u : Nat) :
    (get_cart_summary db u).items = get_cart_items db u ∧
    (get_cart_summary db u).total_items =
      ((get_cart_items db u).map (fun i => i.quantity)).sum ∧
    (get_cart_summary db u).subtotal = round2 (rawSubtotal db u) ∧
    (get_cart_summary db u).tax_amount = round2 (rawSubtotal db u * (8 / 100)) ∧
    (get_cart_summary db u).shipping_amount =
      round2 (if 100 ≤ rawSubtotal db u then 0 else 999 / 100) ∧
    (get_cart_summary db u).total_amount =
      round2 (rawSubtotal db u + rawSubtotal db u * (8 / 100) +
        (if 100 ≤ rawSubtotal db u then 0 else 999 / 100)) ∧
    (get_cart_summary db u).free_shipping_eligible = decide (100 ≤ rawSubtotal db u) ∧
    (get_cart_summary db u).free_shipping_remaining =
      (if rawSubtotal db u < 100 then max 0 (100 - rawSubtotal db u) else 0) := by
  have hsum : ((get_cart_items db u).map (fun i => i.subtotal)).sum = rawSubtotal db u := by
    unfold rawSubtotal
    congr 1
    exact List.map_congr_left (get_cart_items_subtotal db u)
  unfold get_cart_summary
  dsimp only
  rw [hsum]
  exact ⟨rfl, rfl, rfl, rfl, rfl, rfl, rfl, rfl⟩

/-- Claim C3 counterexample: on the store whose single cart line has price
one eighth, the returned free_shipping_remaining is 799/8 = 99.875, a value
that rounding to two decimals would change — so not every monetary value in
the summary result is rounded to two decimal places at output. -/
theorem cart_summary_remaining_unrounded :
    (get_cart_summary exStoreEighth 1).free_shipping_remaining = 799 / 8 ∧
    round2 ((get_cart_summary exStoreEighth 1).free_shipping_remaining) ≠
      (get_cart_summary exStoreEighth 1).free_shipping_remaining := by
  have h : (get_cart_summary exStoreEighth 1).free_shipping_remaining = 799 / 8 := by
    simp only [get_cart_summary, get_cart_items, exStoreEighth, exStore]
    norm_num [List.filter, List.filterMap, List.find?]
  refine ⟨h, ?_⟩
  rw [h]
  norm_num [round2, roundHalfEven, rat_floor_eq_floor]

theorem updateFirst_append_of_forall_not {α : Type} {p : α → Bool} {f : α → α} :
    ∀ {l1 l2 : List α}, (∀ x ∈ l1, ¬p x = true) →
      updateFirst p f (l1 ++ l2) = l1 ++ updateFirst p f l2 := by
  intro l1
  induction l1 with
  | nil => intro l2 _; rfl
  | cons a as ih =>
    intro l2 h
    rw [List.cons_append, updateFirst,
      if_neg (h a (List.mem_cons_self a as)), List.cons_append]
    rw [ih (fun x hx => h x (List.mem_cons_of_mem a hx))]

/-- Claim C4: with an active product in stock s and no cart row yet for the
pair, adding q1 then q2 with q1 + q2 within s succeeds twice and leaves
exactly one cart row for the pair, holding quantity q1 + q2; and whenever
the stock is below the requested total — the existing row quantity plus the
new quantity when a row exists, else the new quantity alone — the add fails
with the insufficient-stock message and the store, cart row included, is
returned unchanged. -/
theorem add_to_cart_merge_and_stock (db : DB) (u pid : Nat) (q1 q2 : Int)
    (product : Product)
    (hfind : db.products.find? (fun p => p.pid == pid && p.is_active) = some product) :
    (db.cart_items.find? (cartKey u pid) = none → 1 ≤ q1 → 1 ≤ q2 →
      q1 + q2 ≤ product.stock_quantity →
      (add_to_cart db u pid q1).1.success = true ∧
      (add_to_cart (add_to_cart db u pid q1).2 u pid q2).1.success = true ∧
      ((add_to_cart (add_to_cart db u pid q1).2 u pid q2).2.cart_items.filter
        (cartKey u pid)).map (fun c => c.quantity) = [q1 + q2]) ∧
    (∀ existing, db.cart_items.find? (cartKey u pid) = some existing →
      product.stock_quantity < existing.quantity + q1 →
      add_to_cart db u pid q1 =
        ({ success := false, message := "Insufficient stock" }, db)) ∧
    (db.cart_items.find? (cartKey u pid) = none →
      product.stock_quantity < q1 →
      add_to_cart db u pid q1 =
        ({ success := false, message := "Insufficient stock" }, db)) := by
  refine ⟨?_, ?_, ?_⟩
  · intro hnone h1 h2 hle
    have hq1 : ¬product.stock_quantity < q1 := by omega
    have hA : add_to_cart db u pid q1 =
        ({ success := true, message := "Item added to cart" },
         { db with cart_items := db.cart_items ++
             [{ user_id := u, product_id := pid, quantity := q1 }] }) := by
      unfold add_to_cart
      rw [hfind]
      dsimp only
      rw [if_neg hq1, hnone]
    rw [hA]
    refine ⟨rfl, ?_⟩
    have hrow : cartKey u pid { user_id := u, product_id := pid, quantity := q1 } = true := by
      simp [cartKey]
    have hfind2 : (db.cart_items ++
        [({ user_id := u, product_id := pid, quantity := q1 } : CartItem)]).find?
          (cartKey u pid) =
        some { user_id := u, product_id := pid, quantity := q1 } := by
      rw [List.find?_append, hnone, Option.none_or]
      rw [List.find?_cons_of_pos _ hrow]
    have hq12 : ¬product.stock_quantity < q1 + q2 := by omega
    have hB : add_to_cart
        { db with cart_items := db.cart_items ++
            [{ user_id := u, product_id := pid, quantity := q1 }] } u pid q2 =
        ({ success := true, message := "Item added to cart" },
         { db with cart_items := db.cart_items ++
             [{ user_id := u, product_id := pid, quantity := q1 + q2 }] }) := by
      unfold add_to_cart
      dsimp only
      rw [hfind]
      dsimp only
      have hq2 : ¬product.stock_quantity < q2 := by omega
      rw [if_neg hq2, hfind2]
      dsimp only
      rw [if_neg hq12]
      rw [updateFirst_append_of_forall_not (List.find?_eq_none.mp hnone)]
      rw [updateFirst, if_pos hrow]
    rw [hB]
    refine ⟨rfl, ?_⟩
    dsimp only
    rw [List.filter_append]
    rw [List.filter_eq_nil_iff.mpr (List.find?_eq_none.mp hnone), List.nil_append]
    rw [List.filter_cons_of_pos (by simp [cartKey])]
    rfl
  · intro existing hexist hlt
    unfold add_to_cart
    rw [hfind]
    dsimp only
    by_cases hq1 : product.stock_quantity < q1
    · rw [if_pos hq1]
    · rw [if_neg hq1, hexist]
      dsimp only
      rw [if_pos hlt]
  · intro hnone hlt
    unfold add_to_cart
    rw [hfind]
    dsimp only
    rw [if_pos hlt]

/-- Witness for add_to_cart_merge_and_stock: stock 5; adding 3 then 2
merges into one row of 5; adding 3 then 3 fails the second add with the
insufficient-stock message and leaves the row at 3. -/
theorem add_to_cart_merge_and_stock_witness :
    ((add_to_cart (add_to_cart exStoreEmptyCart 1 1 3).2 1 1 2).2.cart_items.filter
      (cartKey 1 1)).map (fun c => c.quantity) = [5] ∧
    add_to_cart (add_to_cart exStoreEmptyCart 1 1 3).2 1 1 3 =
      ({ success := false, message := "Insufficient stock" },
       (add_to_cart exStoreEmptyCart 1 1 3).2) := by
  constructor
  · exact ((add_to_cart_merge_and_stock exStoreEmptyCart 1 1 3 2
      { pid := 1, name := "W", price := 95, stock_quantity := 5, is_active := true }
      rfl).1 rfl (by decide) (by decide) (by decide)).2.2
  · exact (add_to_cart_merge_and_stock (add_to_cart exStoreEmptyCart 1 1 3).2 1 1 3 3
      { pid := 1, name := "W", price := 95, stock_quantity := 5, is_active := true }
      rfl).2.1 { user_id := 1, product_id := 1, quantity := 3 } rfl (by decide)

theorem digitsRev_mem_lt : ∀ (n : Nat), ∀ x ∈ digitsRev n, x < 10 := by
  intro n
  induction n using Nat.strong_induction_on with
  | _ n ih =>
    cases n with
    | zero => intro x hx; exact absurd hx (by simp [digitsRev])
    | succ m =>
      intro x hx
      rw [digitsRev] at hx
      rcases List.mem_cons.mp hx with h | h
      · subst h; exact Nat.mod_lt _ (by decide)
      · exact ih ((m + 1) / 10) (Nat.div_lt_self (Nat.succ_pos m) (by decide)) x h

theorem digitsRev_length_le : ∀ (k n : Nat), n < 10 ^ k → (digitsRev n).length ≤ k := by
  intro k
  induction k with
  | zero =>
    intro n h
    have : n = 0 := by omega
    subst this
    simp [digitsRev]
  | succ k ih =>
    intro n h
    cases n with
    | zero => simp [digitsRev]
    | succ m =>
      rw [digitsRev]
      simp only [List.length_cons]
      have hdiv : (m + 1) / 10 < 10 ^ k := by
        rw [Nat.div_lt_iff_lt_mul (by decide)]
        calc m + 1 < 10 ^ (k + 1) := h
        _ = 10 ^ k * 10 := by rw [Nat.pow_succ]
      exact Nat.succ_le_succ (ih _ hdiv)

theorem natDecimalDigits_lt (n : Nat) : ∀ x ∈ natDecimalDigits n, x < 10 := by
  intro x hx
  unfold natDecimalDigits at hx
  by_cases h : n = 0
  · rw [if_pos h] at hx
    simp at hx
    omega
  · rw [if_neg h] at hx
    exact digitsRev_mem_lt n x (List.mem_reverse.mp hx)

theorem natDecimalDigits_length_le (k n : Nat) (hk : 1 ≤ k) (h : n < 10 ^ k) :
    (natDecimalDigits n).length ≤ k := by
  unfold natDecimalDigits
  by_cases h0 : n = 0
  · rw [if_pos h0]
    simpa using hk
  · rw [if_neg h0, List.length_reverse]
    exact digitsRev_length_le k n h

theorem padDigits_length (w n : Nat) (h : (natDecimalDigits n).length ≤ w) :
    (padDigits w n).length = w := by
  unfold padDigits
  rw [List.length_append, List.length_replicate, List.length_map]
  omega

theorem digitChar_isDigit (d : Nat) (h : d < 10) : isDigitChar (digitChar d) = true := by
  interval_cases d <;> decide

theorem padDigits_all_digits (w n : Nat) :
    ∀ c ∈ padDigits w n, isDigitChar c = true := by
  intro c hc
  unfold padDigits at hc
  rcases List.mem_append.mp hc with h | h
  · rw [List.eq_of_mem_replicate h]
    exact digitChar_isDigit 0 (by decide)
  · obtain ⟨d, hd, rfl⟩ := List.mem_map.mp h
    exact digitChar_isDigit d (natDecimalDigits_lt n d hd)

theorem hexDigitUpper_isHex (d : Nat) (h : d < 16) :
    isUpperHexChar (hexDigitUpper d) = true := by
  interval_cases d <;> decide

theorem byteHexUpper_all (b : Nat) (h : b < 256) :
    ∀ c ∈ byteHexUpper b, isUpperHexChar c = true := by
  intro c hc
  unfold byteHexUpper at hc
  rcases List.mem_cons.mp hc with rfl | hc2
  · exact hexDigitUpper_isHex (b / 16) (by omega)
  · rcases List.mem_cons.mp hc2 with rfl | hc3
    · exact hexDigitUpper_isHex (b % 16) (Nat.mod_lt _ (by decide))
    · exact absurd hc3 (by simp)

theorem hexFlatten_length :
    ∀ token : List Nat, ((token.map byteHexUpper).flatten).length = 2 * token.length := by
  intro token
  induction token with
  | nil => rfl
  | cons b bs ih =>
    rw [List.map_cons, List.flatten_cons, List.length_append, ih, List.length_cons]
    rw [show (byteHexUpper b).length = 2 from rfl]
    omega

theorem hexFlatten_all (token : List Nat) (h : ∀ b ∈ token, b < 256) :
    ∀ c ∈ (token.map byteHexUpper).flatten, isUpperHexChar c = true := by
  intro c hc
  rw [List.mem_flatten] at hc
  obtain ⟨l, hl, hcl⟩ := hc
  obtain ⟨b, hb, rfl⟩ := List.mem_map.mp hl
  exact byteHexUpper_all b (h b hb) c hcl

theorem orderNumberPattern_of_parts (A B : List Char)
    (hA : A.length = 8) (hB : B.length = 8)
    (hAd : ∀ c ∈ A, isDigitChar c = true)
    (hBh : ∀ c ∈ B, isUpperHexChar c = true) :
    orderNumberPattern (String.mk (('C' :: 'W' :: A) ++ B)) = true := by
  unfold orderNumberPattern
  dsimp only
  simp only [List.cons_append]
  have h2 : (A ++ B).take 8 = A := by rw [← hA]; exact List.take_left A B
  have h3 : (A ++ B).drop 8 = B := by rw [← hA]; exact List.drop_left A B
  rw [show List.take 2 ('C' :: 'W' :: (A ++ B)) = ['C', 'W'] from rfl,
    show List.drop 2 ('C' :: 'W' :: (A ++ B)) = A ++ B from rfl,
    show List.drop 10 ('C' :: 'W' :: (A ++ B)) = List.drop 8 (A ++ B) from rfl,
    h2, h3]
  simp [List.length_append, hA, hB, List.all_eq_true]
  exact ⟨hAd, hBh⟩

theorem orderNumberPattern_generate (y m d : Nat) (token : List Nat)
    (hy2 : y ≤ 9999) (hm : m ≤ 99) (hd : d ≤ 31)
    (htl : token.length = 4) (htb : ∀ b ∈ token, b < 256) :
    orderNumberPattern (generate_order_number y m d token) = true := by
  unfold generate_order_number
  have hlA : (padDigits 4 y ++ padDigits 2 m ++ padDigits 2 d).length = 8 := by
    rw [List.length_append, List.length_append,
      padDigits_length 4 y (natDecimalDigits_length_le 4 y (by decide) (by omega)),
      padDigits_length 2 m (natDecimalDigits_length_le 2 m (by decide) (by omega)),
      padDigits_length 2 d (natDecimalDigits_length_le 2 d (by decide) (by omega))]
  have hlB : ((token.map byteHexUpper).flatten).length = 8 := by
    rw [hexFlatten_length, htl]
  have hAd : ∀ c ∈ padDigits 4 y ++ padDigits 2 m ++ padDigits 2 d,
      isDigitChar c = true := by
    intro c hc
    rcases List.mem_append.mp hc with h | h
    · rcases List.mem_append.mp h with h2 | h2
      · exact padDigits_all_digits 4 y c h2
      · exact padDigits_all_digits 2 m c h2
    · exact padDigits_all_digits 2 d c h
  exact orderNumberPattern_of_parts _ _ hlA hlB hAd (hexFlatten_all token htb)

/-- Claim C5: after every successful create_order_from_cart for a user, the
cart of that user is empty and an order row of that user exists whose
status and payment_status are both pending and whose order number is CW
followed by the eight digits of the current date and eight uppercase
hexadecimal characters. -/
theorem create_order_success_post (db : DB) (u y m d : Nat) (token : List Nat)
    (hy2 : y ≤ 9999) (hm : m ≤ 99) (hd : d ≤ 31)
    (htl : token.length = 4) (htb : ∀ b ∈ token, b < 256)
    (hs : (create_order_from_cart db u y m d token).1.success = true) :
    (create_order_from_cart db u y m d token).2.cart_items.filter
      (fun c => c.user_id == u) = [] ∧
    ∃ o ∈ (create_order_from_cart db u y m d token).2.orders,
      o.user_id = u ∧ o.status = "pending" ∧ o.payment_status = "pending" ∧
      orderNumberPattern o.order_number = true := by
  obtain ⟨ps2, pids, hpci, hstate⟩ := create_order_success_state db u y m d token hs
  rw [hstate]
  constructor
  · dsimp only
    rw [List.filter_filter]
    apply List.filter_eq_nil_iff.mpr
    intro a _
    simp
  · refine ⟨_, List.mem_append.mpr (Or.inr (List.mem_singleton.mpr rfl)), rfl, rfl, rfl, ?_⟩
    exact orderNumberPattern_generate y m d token hy2 hm hd htl htb

/-- Witness for create_order_success_post: checking out the one-line cart
of exStore succeeds and the consequences are concrete. -/
theorem create_order_success_post_witness :
    (create_order_from_cart exStore 1 2026 10 12 [1, 171, 3, 255]).2.cart_items.filter
      (fun c => c.user_id == 1) = [] ∧
    ∃ o ∈ (create_order_from_cart exStore 1 2026 10 12 [1, 171, 3, 255]).2.orders,
      o.user_id = 1 ∧ o.status = "pending" ∧ o.payment_status = "pending" ∧
      orderNumberPattern o.order_number = true :=
  create_order_success_post exStore 1 2026 10 12 [1, 171, 3, 255] (by decide) (by decide)
    (by decide) (by decide) (by decide) (by decide)

/-- Claim C6: cancel_order on an order already shipped, delivered or
cancelled fails with no state change; on any other found order it succeeds,
sets the status of that order to cancelled, and raises the stock of every
product associated with the order by exactly one, regardless of the
quantity purchased, and of no other product. -/
theorem cancel_order_spec (db : DB) (oid : Nat) (uid : Option Nat) (order : Order)
    (hfind : db.orders.find? (orderMatches oid uid) = some order) :
    ((order.status = "shipped" ∨ order.status = "delivered" ∨
        order.status = "cancelled") →
      (cancel_order db oid uid).1.success = false ∧ (cancel_order db oid uid).2 = db) ∧
    (order.status ≠ "shipped" → order.status ≠ "delivered" →
      order.status ≠ "cancelled" → order.products.Nodup →
      (cancel_order db oid uid).1.success = true ∧
      (cancel_order db oid uid).2.orders.find? (orderMatches oid uid) =
        some { order with status := "cancelled" } ∧
      (∀ k : Nat, stockOf (cancel_order db oid uid).2.products k =
        (stockOf db.products k).map
          (fun s => s + (if k ∈ order.products then 1 else 0)))) := by
  constructor
  · intro hst
    unfold cancel_order
    rw [hfind]
    dsimp only
    have hcond : (order.status == "shipped" || order.status == "delivered" ||
        order.status == "cancelled") = true := by
      rcases hst with h | h | h <;> simp [h]
    rw [if_pos hcond]
    exact ⟨rfl, rfl⟩
  · intro h1 h2 h3 hnd
    unfold cancel_order
    rw [hfind]
    dsimp only
    have hcond : ¬((order.status == "shipped" || order.status == "delivered" ||
        order.status == "cancelled") = true) := by
      simp [beq_iff_eq, h1, h2, h3]
    rw [if_neg hcond]
    refine ⟨rfl, ?_, ?_⟩
    · dsimp only
      rw [find?_updateFirst_of_preserve
        (f := fun o => { o with status := "cancelled" }) (fun o => rfl) db.orders, hfind]
      rfl
    · intro k
      dsimp only
      exact stockOf_restoreStock order.products db.products k hnd

/-- Witness for cancel_order_spec: cancelling a shipped order fails and
changes nothing; cancelling the pending order succeeds, marks it cancelled
and restores one unit of its product. -/
theorem cancel_order_spec_witness :
    ((cancel_order exStoreWithShipped 1 none).1.success = false ∧
      (cancel_order exStoreWithShipped 1 none).2 = exStoreWithShipped) ∧
    ((cancel_order exStoreWithOrder 1 none).1.success = true ∧
      (cancel_order exStoreWithOrder 1 none).2.orders.find? (orderMatches 1 none) =
        some { exOrderPending with status := "cancelled" } ∧
      stockOf (cancel_order exStoreWithOrder 1 none).2.products 1 =
        (stockOf exStoreWithOrder.products 1).map
          (fun s => s + (if (1 : Nat) ∈ exOrderPending.products then 1 else 0))) := by
  constructor
  · exact (cancel_order_spec exStoreWithShipped 1 none
      { exOrderPending with status := "shipped" } rfl).1 (Or.inl rfl)
  · have h := (cancel_order_spec exStoreWithOrder 1 none exOrderPending rfl).2
      (by decide) (by decide) (by decide) (by decide)
    exact ⟨h.1, h.2.1, h.2.2 1⟩

/-- Claim C7 (code evaluation): every register_user call, whatever the
store and arguments, returns a failure record and leaves the store
unchanged, because the duplicate-check query at auth_service.py line 40
evaluates or_, a name the module never imports; the NameError is caught by
the generic handler and converted to a failure result. In particular a
fresh username and email pair does not register, and no Conflict result is
ever produced. -/
theorem register_user_always_fails (db : DB) (sha256 : String → String) (salt : String)
    (username email password : String) (full_name : Option String) :
    register_user db sha256 salt username email password full_name =
      ({ success := false,
         message := "Registration failed: name or_ is not defined" }, db) := rfl

/-- Claim C8 (code evaluation): every authenticate_user call returns a
failure record, because the user query at auth_service.py line 87
evaluates the unimported name or_; the NameError is caught at line 112 and
converted to a failure result, so no password is ever checked and no login
succeeds. -/
theorem authenticate_user_always_fails (db : DB) (sha256 : String → String)
    (username password : String) :
    authenticate_user db sha256 username password =
      ({ success := false,
         message := "Authentication failed: name or_ is not defined" }, db) := rfl

/-- Claim C9 (code evaluation): get_order_statistics never returns the
statistics record: after computing the three counts it evaluates func.sum
at order_service.py line 270, but func is not imported, and the method has
no except clause, so the NameError propagates to the caller on every
call. -/
theorem get_order_statistics_raises (db : DB) :
    get_order_statistics db =
      Except.error "NameError: name func is not defined" := rfl

/-- Claim C10 counterexample: add_to_cart with quantity 0 on an active
product and an empty cart succeeds and creates a cart row holding
quantity 0, which is below the stated minimum of 1. -/
theorem add_zero_quantity_row :
    (add_to_cart exStoreEmptyCart 1 1 0).1.success = true ∧
    (add_to_cart exStoreEmptyCart 1 1 0).2.cart_items =
      [{ user_id := 1, product_id := 1, quantity := 0 }] := ⟨rfl, rfl⟩

theorem cartUnique_updateFirst {p : CartItem → Bool} {f : CartItem → CartItem}
    (hf : ∀ c, (f c).user_id = c.user_id ∧ (f c).product_id = c.product_id) :
    ∀ {l : List CartItem}, cartUnique l → cartUnique (updateFirst p f l) := by
  intro l
  induction l with
  | nil => intro h; exact h
  | cons a as ih =>
    intro h
    obtain ⟨ha, has⟩ := List.pairwise_cons.mp h
    rw [cartUnique, updateFirst]
    by_cases hpa : p a
    · rw [if_pos hpa]
      refine List.pairwise_cons.mpr ⟨?_, has⟩
      intro b hb
      have hd := ha b hb
      unfold keyDiff at hd ⊢
      rw [(hf a).1, (hf a).2]
      exact hd
    · rw [if_neg hpa]
      refine List.pairwise_cons.mpr ⟨?_, ih has⟩
      intro b hb
      rcases mem_updateFirst hb with hmem | ⟨y, hy, rfl⟩
      · exact ha b hmem
      · have hd := ha y (List.mem_of_find?_eq_some hy)
        unfold keyDiff at hd ⊢
        rw [(hf y).1, (hf y).2]
        exact hd

theorem remove_from_cart_invariant (db : DB) (u pid : Nat)
    (hQ : cartQtyOk db.cart_items) (hU : cartUnique db.cart_items) :
    cartQtyOk (remove_from_cart db u pid).2.cart_items ∧
    cartUnique (remove_from_cart db u pid).2.cart_items := by
  unfold remove_from_cart
  split
  · exact ⟨hQ, hU⟩
  · constructor
    · intro c hc
      exact hQ c ((List.eraseP_sublist _).subset hc)
    · exact hU.sublist (List.eraseP_sublist _)

/-- Claim C10 (amended): remove and clear always preserve the cart
invariant, set-quantity preserves it for every quantity, and add preserves
it when called with a positive quantity: afterwards every cart row has
quantity at least 1 and there is at most one row per (user, product) pair.
Add with a non-positive quantity is excluded: it can create a row with
quantity below 1, as the counterexample shows. -/
theorem cart_ops_preserve_invariant (db : DB)
    (hQ : cartQtyOk db.cart_items) (hU : cartUnique db.cart_items) :
    (∀ u pid : Nat, ∀ q : Int, 1 ≤ q →
      cartQtyOk (add_to_cart db u pid q).2.cart_items ∧
      cartUnique (add_to_cart db u pid q).2.cart_items) ∧
    (∀ u pid : Nat, ∀ q : Int,
      cartQtyOk (update_cart_item_quantity db u pid q).2.cart_items ∧
      cartUnique (update_cart_item_quantity db u pid q).2.cart_items) ∧
    (∀ u pid : Nat,
      cartQtyOk (remove_from_cart db u pid).2.cart_items ∧
      cartUnique (remove_from_cart db u pid).2.cart_items) ∧
    (∀ u : Nat,
      cartQtyOk (clear_cart db u).2.cart_items ∧
      cartUnique (clear_cart db u).2.cart_items) := by
  refine ⟨?_, ?_, fun u pid => remove_from_cart_invariant db u pid hQ hU, ?_⟩
  · intro u pid q hq
    unfold add_to_cart
    dsimp only
    split
    · exact ⟨hQ, hU⟩
    · split
      · exact ⟨hQ, hU⟩
      · split
        · next existing heq =>
          split
          · exact ⟨hQ, hU⟩
          · constructor
            · intro x hx
              rcases mem_updateFirst hx with hmem | ⟨y, hy, rfl⟩
              · exact hQ x hmem
              · rw [heq] at hy
                injection hy with hy
                subst hy
                have := hQ existing (List.mem_of_find?_eq_some heq)
                dsimp only
                omega
            · exact cartUnique_updateFirst
                (f := fun c => { c with quantity := existing.quantity + q })
                (fun c => ⟨rfl, rfl⟩) hU
        · next heq =>
          constructor
          · intro x hx
            rcases List.mem_append.mp hx with hmem | hmem
            · exact hQ x hmem
            · rw [List.mem_singleton.mp hmem]
              exact hq
          · refine List.pairwise_append.mpr ⟨hU, List.pairwise_singleton _ _, ?_⟩
            intro a ha b hb
            rw [List.mem_singleton.mp hb]
            have hnk := List.find?_eq_none.mp heq a ha
            unfold keyDiff
            dsimp only
            intro ⟨he1, he2⟩
            exact hnk (by simp [cartKey, he1, he2])
  · intro u pid q
    unfold update_cart_item_quantity
    split
    · exact remove_from_cart_invariant db u pid hQ hU
    · next hqpos =>
      dsimp only
      split
      · exact ⟨hQ, hU⟩
      · split
        · exact ⟨hQ, hU⟩
        · split
          · exact ⟨hQ, hU⟩
          · constructor
            · intro x hx
              rcases mem_updateFirst hx with hmem | ⟨y, hy, rfl⟩
              · exact hQ x hmem
              · dsimp only
                omega
            · exact cartUnique_updateFirst
                (f := fun c => { c with quantity := q })
                (fun c => ⟨rfl, rfl⟩) hU
  · intro u
    constructor
    · intro c hc
      exact hQ c ((List.filter_sublist _).subset hc)
    · exact hU.sublist (List.filter_sublist _)

/-- Witness for cart_ops_preserve_invariant: adding 2 of the product to the
one-row cart of exStore keeps all quantities at least 1 and one row per
pair. -/
theorem cart_ops_preserve_invariant_witness :
    cartQtyOk (add_to_cart exStore 1 1 2).2.cart_items ∧
    cartUnique (add_to_cart exStore 1 1 2).2.cart_items :=
  (cart_ops_preserve_invariant exStore (by unfold cartQtyOk; decide)
    (by unfold cartUnique exStore; simp)).1 1 1 2 (by decide)

end Shop
